import Mathlib

/-
Verification of the example-python-lambda service
(src/examples/lambda/example-python-lambda/lambda_function.py).

The file embeds, as executable Lean definitions:
  * the JSON payload language and the compact JSON rendering used by the
    response layer (FastAPI's JSONResponse renders with separators (",", ":")),
  * the pydantic model PlatformRequest (lines 17-20 of the source) and the
    validation it induces on a JSON body,
  * the three handlers health (lines 23-26), root (lines 29-32) and
    platform (lines 35-67), translated clause by clause,
  * the routing/dispatch/encode layer.  That layer is implemented by the
    external FastAPI + Mangum libraries, whose code is not part of this
    repository; it is modelled from the spec (sections 4.2, 4.4, 4.5) and the
    definitions concerned say so in their doc comments.
-/

namespace ExampleLambda

/-- JSON values: the payload language of the service (request bodies and
handler results). -/
inductive Json where
  | null
  | bool (b : Bool)
  | num (n : Int)
  | str (s : String)
  | arr (xs : List Json)
  | obj (fields : List (String × Json))

/-- Escape one character for a JSON string literal (quote, backslash and the
common control characters; the strings this service emits contain none). -/
def quoteChar (c : Char) : String :=
  if c = '"' then "\\\""
  else if c = '\\' then "\\\\"
  else if c = '\n' then "\\n"
  else if c = '\t' then "\\t"
  else if c = '\r' then "\\r"
  else String.singleton c

/-- Render a string as a JSON string literal. -/
def quoteStr (s : String) : String :=
  "\"" ++ String.join (s.toList.map quoteChar) ++ "\""

mutual

/-- Compact JSON rendering: no whitespace, fields in insertion order.  This is
the rendering FastAPI's JSONResponse applies to a handler result (json.dumps
with separators (",", ":")); Python dicts keep insertion order. -/
def serializeJson : Json → String
  | Json.null => "null"
  | Json.bool b => cond b "true" "false"
  | Json.num n => toString n
  | Json.str s => quoteStr s
  | Json.arr xs => "[" ++ serializeList xs ++ "]"
  | Json.obj fs => "\x7b" ++ serializeFields fs ++ "\x7d"

/-- Render the elements of a JSON array, comma-separated. -/
def serializeList : List Json → String
  | [] => ""
  | [x] => serializeJson x
  | x :: y :: xs => serializeJson x ++ "," ++ serializeList (y :: xs)

/-- Render the fields of a JSON object, comma-separated. -/
def serializeFields : List (String × Json) → String
  | [] => ""
  | [(k, v)] => quoteStr k ++ ":" ++ serializeJson v
  | (k, v) :: f :: fs => quoteStr k ++ ":" ++ serializeJson v ++ "," ++ serializeFields (f :: fs)

end

/-- Look a key up in a JSON object (first occurrence wins, as in a parsed
Python dict); on a non-object the key is absent. -/
def Json.getField : Json → String → Option Json
  | Json.obj fs, key => fs.lookup key
  | _, _ => none

/-- The pydantic model of the source, lines 17-20:
name is a required str, version an Optional[str] defaulting to "1.0.0",
description an Optional[str] defaulting to "".  An Option value of none stands
for Python None (an explicit JSON null supplied by the client). -/
structure PlatformRequest where
  name : String
  version : Option String
  description : Option String
deriving DecidableEq

/-- Validation of a required str field under pydantic: the key must be present
and hold a JSON string; anything else (absent key, null, wrong type) is a
validation failure. -/
def parseRequiredStr (fs : List (String × Json)) (key : String) : Option String :=
  match fs.lookup key with
  | some (Json.str s) => some s
  | _ => none

/-- Validation of an Optional[str] field with a default under pydantic: an
absent key takes the default, an explicit JSON null yields Python None (the
default is not substituted), a JSON string yields that string, and any other
value is a validation failure.  The outer Option is the validation outcome,
the inner Option the field value. -/
def parseOptionalStr (fs : List (String × Json)) (key : String) (dflt : String) :
    Option (Option String) :=
  match fs.lookup key with
  | none => some (some dflt)
  | some Json.null => some none
  | some (Json.str s) => some (some s)
  | some _ => none

/-- Validation of a JSON body against the PlatformRequest model: the body must
be a JSON object whose three fields validate as declared; otherwise the
outcome is a validation failure (none). -/
def validatePlatformRequest : Json → Option PlatformRequest
  | Json.obj fs =>
    match parseRequiredStr fs "name",
          parseOptionalStr fs "version" "1.0.0",
          parseOptionalStr fs "description" "" with
    | some n, some v, some d => some (PlatformRequest.mk n v d)
    | _, _, _ => none
  | _ => none

/-- The health handler, source lines 23-26: a fixed literal result. -/
def health : Json :=
  Json.obj [("status", Json.str "healthy"), ("service", Json.str "example-python-lambda")]

/-- The root handler, source lines 29-32: a fixed literal greeting. -/
def root : Json :=
  Json.obj [("message", Json.str "Hello from Python Lambda!")]

/-- Python truthiness of an Optional[str] value: None and the empty string are
falsy, every other string truthy.  This is the test the source applies in
both if statements of the platform handler (lines 44 and 47). -/
def pyTruthy : Option String → Bool
  | none => false
  | some s => s != ""

/-- How an Optional[str] value appears inside a Python f-string: None renders
as the text None, a string as itself.  (In the source the interpolation is
only reached when the value is truthy, hence a non-empty string.) -/
def pyStr : Option String → String
  | none => "None"
  | some s => s

/-- The welcome message of the platform handler, source lines 41-48: the base
greeting, then the version clause when version is truthy, then the description
clause when description is truthy, appended in that order. -/
def platformMessage (r : PlatformRequest) : String :=
  let base := "Welcome to " ++ r.name ++ "!"
  let withVersion :=
    if pyTruthy r.version then base ++ " Running version " ++ pyStr r.version ++ "." else base
  if pyTruthy r.description then withVersion ++ " Description: " ++ pyStr r.description
  else withVersion

/-- An Optional[str] value as JSON: Python None serializes to JSON null. -/
def optStrJson : Option String → Json
  | none => Json.null
  | some s => Json.str s

/-- The platform handler result, source lines 50-66: the message, a platform
object echoing the request fields plus fixed status and uptime, and a metadata
object with fixed literal fields. -/
def platform (r : PlatformRequest) : Json :=
  Json.obj
    [("message", Json.str (platformMessage r)),
     ("platform", Json.obj
        [("name", Json.str r.name),
         ("version", optStrJson r.version),
         ("description", optStrJson r.description),
         ("status", Json.str "active"),
         ("uptime", Json.str "99.9%")]),
     ("metadata", Json.obj
        [("processed_at", Json.str "2024-01-01T00:00:00Z"),
         ("lambda_version", Json.str "python3.12"),
         ("region", Json.str "us-east-1")])]

/-- The raw body of an inbound event, as seen after the gateway envelope is
unpacked: absent, present but not parseable as JSON, or a parsed JSON value. -/
inductive Body where
  | absent
  | malformed
  | json (j : Json)

/-- Modelled from the spec: the encode contract of the Event Adapter for a
routing miss (section 4.4; the concrete encoder is FastAPI + Mangum, not in
this repository): a structured error object with error "not found". -/
def notFoundBody : Json :=
  Json.obj [("error", Json.str "not found")]

/-- Modelled from the spec: the encode contract of the Event Adapter for a
validation failure (section 4.4; the concrete encoder is FastAPI + Mangum, not
in this repository): a structured validation-error object. -/
def validationErrorBody : Json :=
  Json.obj [("error", Json.str "validation failed")]

/-- Modelled from the spec: the encode contract of the Event Adapter for an
unexpected handler failure (section 4.4; the concrete encoder is FastAPI +
Mangum, not in this repository): a generic structured error object carrying no
detail of the internal failure. -/
def internalErrorBody : Json :=
  Json.obj [("error", Json.str "internal server error")]

/-- The validation step applied to the raw body of a POST /platform request:
an absent or unparseable body fails exactly like a body that does not conform
to the model. -/
def parseBody : Body → Option PlatformRequest
  | Body.json j => validatePlatformRequest j
  | _ => none

/-- Modelled from the spec: the Router and Dispatcher (sections 4.2 and 4.5;
the concrete routing table and dispatch loop are FastAPI internals, not in
this repository).  Exact match on method and path over the three fixed routes;
no match yields 404, a validation failure on the typed-body route yields 422,
otherwise the handler runs and yields 200.  The platform handler is a
parameter so that independence from it can be stated where it is not
invoked. -/
def dispatchCoreWith (ph : PlatformRequest → Json) (method path : String) (body : Body) :
    Nat × Json :=
  if method = "GET" ∧ path = "/health" then (200, health)
  else if method = "GET" ∧ path = "/" then (200, root)
  else if method = "POST" ∧ path = "/platform" then
    match parseBody body with
    | some r => (200, ph r)
    | none => (422, validationErrorBody)
  else (404, notFoundBody)

/-- Dispatch with the actual platform handler of the source. -/
def dispatchCore (method path : String) (body : Body) : Nat × Json :=
  dispatchCoreWith platform method path body

/-- The outbound response envelope (spec section 3): status code, headers,
rendered body, base64 flag (always false here). -/
structure HttpResponse where
  statusCode : Nat
  headers : List (String × String)
  body : String
  isBase64Encoded : Bool
deriving DecidableEq

/-- Modelled from the spec: the full decode-dispatch-encode cycle for one
inbound event (section 4.4; the envelope translation is Mangum, not in this
repository).  The dispatch outcome is rendered as compact JSON with a JSON
content type. -/
def dispatch (method path : String) (body : Body) : HttpResponse :=
  { statusCode := (dispatchCore method path body).1,
    headers := [("content-type", "application/json")],
    body := serializeJson (dispatchCore method path body).2,
    isBase64Encoded := false }

/-- Log severities relevant to the source (logger.info and logger.exception;
the latter logs at error severity). -/
inductive Severity where
  | info
  | error
deriving DecidableEq

/-- One log record: a severity and a message. -/
structure LogEntry where
  sev : Severity
  msg : String
deriving DecidableEq

/-- The try/except wrapper of the platform handler, source lines 37-71,
with the straight-line construction abstracted as a fallible computation: the
info log of line 38 always happens first; on an exception, line 70 logs the
failure at error severity (logger.exception) and line 71 re-raises it
unchanged.  (The info log text stands in for the request repr of line 38,
whose exact rendering no claim depends on.) -/
def platformGuarded (run : PlatformRequest → Except String Json) (r : PlatformRequest) :
    Except String Json × List LogEntry :=
  match run r with
  | Except.ok j =>
      (Except.ok j,
       [LogEntry.mk Severity.info ("Processing platform request: " ++ r.name)])
  | Except.error e =>
      (Except.error e,
       [LogEntry.mk Severity.info ("Processing platform request: " ++ r.name),
        LogEntry.mk Severity.error ("Error processing platform request: " ++ e)])

/-- Modelled from the spec: the Dispatcher boundary for a handler outcome
(sections 4.4, 4.5; the concrete boundary is FastAPI, not in this repository):
a success is encoded as 200 with the rendered result, an unexpected handler
failure as 500 with the generic error body, never with the failure text. -/
def encodeOutcome : Except String Json → HttpResponse
  | Except.ok j =>
      HttpResponse.mk 200 [("content-type", "application/json")] (serializeJson j) false
  | Except.error _ =>
      HttpResponse.mk 500 [("content-type", "application/json")] (serializeJson internalErrorBody) false

/-- On the POST /platform route the dispatch outcome is the validation match:
the three route conditions reduce on the literal method and path. -/
theorem dispatchCoreWith_post_platform (ph : PlatformRequest → Json) (b : Body) :
    dispatchCoreWith ph "POST" "/platform" b =
      match parseBody b with
      | some r => (200, ph r)
      | none => (422, validationErrorBody) := by
  unfold dispatchCoreWith
  rw [if_neg (by decide), if_neg (by decide), if_pos (by decide)]

/-- Off the three routes the dispatch outcome is the 404 pair. -/
theorem dispatchCoreWith_no_route (ph : PlatformRequest → Json) (method path : String)
    (b : Body)
    (h : ¬ ((method = "GET" ∧ path = "/health") ∨ (method = "GET" ∧ path = "/") ∨
        (method = "POST" ∧ path = "/platform"))) :
    dispatchCoreWith ph method path b = (404, notFoundBody) := by
  have h1 : ¬ (method = "GET" ∧ path = "/health") := fun hc => h (Or.inl hc)
  have h2 : ¬ (method = "GET" ∧ path = "/") := fun hc => h (Or.inr (Or.inl hc))
  have h3 : ¬ (method = "POST" ∧ path = "/platform") := fun hc => h (Or.inr (Or.inr hc))
  unfold dispatchCoreWith
  rw [if_neg h1, if_neg h2, if_neg h3]

/-- Claim C1: every inbound event whose method and path pair matches none of
GET /health, GET / and POST /platform — a wrong method on an existing path
included — is answered with status 404 and the body error "not found". -/
theorem c1_unmatched_route_404 (method path : String) (b : Body)
    (h : ¬ ((method = "GET" ∧ path = "/health") ∨ (method = "GET" ∧ path = "/") ∨
        (method = "POST" ∧ path = "/platform"))) :
    (dispatch method path b).statusCode = 404 ∧
    (dispatch method path b).body = "\x7b\"error\":\"not found\"\x7d" := by
  have hc : dispatchCoreWith platform method path b = (404, notFoundBody) :=
    dispatchCoreWith_no_route platform method path b h
  constructor
  · show (dispatchCoreWith platform method path b).1 = 404
    rw [hc]
  · show serializeJson (dispatchCoreWith platform method path b).2 = _
    rw [hc]
    rfl

/-- Claim C1 witness: GET /platform, the wrong method on an existing path, is
answered with 404 and the body error "not found". -/
theorem c1_witness :
    (dispatch "GET" "/platform" Body.absent).statusCode = 404 ∧
    (dispatch "GET" "/platform" Body.absent).body = "\x7b\"error\":\"not found\"\x7d" :=
  c1_unmatched_route_404 "GET" "/platform" Body.absent (by decide)

/-- Claim C2: POST /platform with body name "Acme" and no version or
description yields status 200, the message with the defaulted version clause,
platform.version "1.0.0" and platform.description "". -/
theorem c2_platform_defaults_200 :
    (dispatch "POST" "/platform" (Body.json (Json.obj [("name", Json.str "Acme")]))).statusCode
      = 200 ∧
    Json.getField
        (dispatchCore "POST" "/platform" (Body.json (Json.obj [("name", Json.str "Acme")]))).2
        "message"
      = some (Json.str "Welcome to Acme! Running version 1.0.0.") ∧
    Option.bind
        (Json.getField
          (dispatchCore "POST" "/platform" (Body.json (Json.obj [("name", Json.str "Acme")]))).2
          "platform")
        (fun p => Json.getField p "version")
      = some (Json.str "1.0.0") ∧
    Option.bind
        (Json.getField
          (dispatchCore "POST" "/platform" (Body.json (Json.obj [("name", Json.str "Acme")]))).2
          "platform")
        (fun p => Json.getField p "description")
      = some (Json.str "") :=
  ⟨rfl, rfl, rfl, rfl⟩

/-- Claim C3: the welcome message is the base greeting, then the version
clause exactly when version is truthy, then the description clause exactly
when description is truthy, in that fixed order; in particular name "Acme",
version "" and description "x" yield the message with only the description
clause. -/
theorem c3_message_order (r : PlatformRequest) :
    platformMessage r =
      ("Welcome to " ++ r.name ++ "!")
        ++ (if pyTruthy r.version then " Running version " ++ pyStr r.version ++ "." else "")
        ++ (if pyTruthy r.description then " Description: " ++ pyStr r.description else "") ∧
    Json.getField
        (dispatchCore "POST" "/platform" (Body.json (Json.obj
          [("name", Json.str "Acme"), ("version", Json.str ""), ("description", Json.str "x")]))).2
        "message"
      = some (Json.str "Welcome to Acme! Description: x") := by
  refine ⟨?_, rfl⟩
  unfold platformMessage
  cases hv : pyTruthy r.version <;> cases hd : pyTruthy r.description <;>
    simp only [hv, hd, if_true, if_false, Bool.false_eq_true, String.append_empty,
      String.append_assoc]

/-- Claim C4 counterexample: the model does not reject an empty name — the
body with name "" validates to a PlatformRequest whose name is the empty
string, and the request is answered 200, so the claimed non-emptiness of the
name fails on the code. -/
theorem c4_counterexample :
    validatePlatformRequest (Json.obj [("name", Json.str "")]) =
      some (PlatformRequest.mk "" (some "1.0.0") (some "")) ∧
    (dispatch "POST" "/platform" (Body.json (Json.obj [("name", Json.str "")]))).statusCode
      = 200 ∧
    Json.getField
        (dispatchCore "POST" "/platform" (Body.json (Json.obj [("name", Json.str "")]))).2
        "message"
      = some (Json.str "Welcome to ! Running version 1.0.0.") :=
  ⟨rfl, rfl, rfl⟩

/-- Claim C4 amended: the name field is required — a body whose object has no
name key fails validation, is answered 422 and never reaches any handler —
but emptiness is not checked, and name may validate to the empty string. -/
theorem c4_name_required (fs : List (String × Json)) (ph : PlatformRequest → Json)
    (h : fs.lookup "name" = none) :
    validatePlatformRequest (Json.obj fs) = none ∧
    dispatchCoreWith ph "POST" "/platform" (Body.json (Json.obj fs))
      = (422, validationErrorBody) ∧
    (dispatch "POST" "/platform" (Body.json (Json.obj fs))).statusCode = 422 := by
  have hval : validatePlatformRequest (Json.obj fs) = none := by
    simp only [validatePlatformRequest, parseRequiredStr, h]
  have hb : parseBody (Body.json (Json.obj fs)) = none := hval
  refine ⟨hval, ?_, ?_⟩
  · rw [dispatchCoreWith_post_platform, hb]
  · show (dispatchCoreWith platform "POST" "/platform" (Body.json (Json.obj fs))).1 = 422
    rw [dispatchCoreWith_post_platform, hb]

/-- Claim C4 amended witness: the empty object body has no name key, fails
validation and is answered 422. -/
theorem c4_witness :
    validatePlatformRequest (Json.obj []) = none ∧
    dispatchCoreWith (fun _ => Json.null) "POST" "/platform" (Body.json (Json.obj []))
      = (422, validationErrorBody) ∧
    (dispatch "POST" "/platform" (Body.json (Json.obj []))).statusCode = 422 :=
  c4_name_required [] (fun _ => Json.null) rfl

/-- Claim C5: a POST /platform body that is absent, not parseable as JSON or
failing validation is answered 422 with the structured validation-error body,
and the outcome is the same whatever the platform handler is — the handler is
not invoked. -/
theorem c5_invalid_body_422 (b : Body) (ph : PlatformRequest → Json)
    (h : parseBody b = none) :
    dispatchCoreWith ph "POST" "/platform" b = (422, validationErrorBody) ∧
    (dispatch "POST" "/platform" b).statusCode = 422 ∧
    (dispatch "POST" "/platform" b).body = serializeJson validationErrorBody := by
  have key : ∀ g : PlatformRequest → Json,
      dispatchCoreWith g "POST" "/platform" b = (422, validationErrorBody) := by
    intro g
    rw [dispatchCoreWith_post_platform, h]
  refine ⟨key ph, ?_, ?_⟩
  · show (dispatchCoreWith platform "POST" "/platform" b).1 = 422
    rw [key platform]
  · show serializeJson (dispatchCoreWith platform "POST" "/platform" b).2 = _
    rw [key platform]

/-- Claim C5 witness: a body that is not parseable as JSON is answered 422
with the validation-error body, independently of the handler. -/
theorem c5_witness :
    dispatchCoreWith (fun _ => Json.null) "POST" "/platform" Body.malformed
      = (422, validationErrorBody) ∧
    (dispatch "POST" "/platform" Body.malformed).statusCode = 422 ∧
    (dispatch "POST" "/platform" Body.malformed).body = serializeJson validationErrorBody :=
  c5_invalid_body_422 Body.malformed (fun _ => Json.null) rfl

/-- Claim C6: when the version and description keys are absent from the body,
any PlatformRequest the validation delivers carries the defaults — version
"1.0.0" and description "" — and neither field is None. -/
theorem c6_optional_defaults (fs : List (String × Json)) (r : PlatformRequest)
    (hv : fs.lookup "version" = none) (hd : fs.lookup "description" = none)
    (h : validatePlatformRequest (Json.obj fs) = some r) :
    r.version = some "1.0.0" ∧ r.description = some "" ∧
    r.version ≠ none ∧ r.description ≠ none := by
  have hv2 : parseOptionalStr fs "version" "1.0.0" = some (some "1.0.0") := by
    simp [parseOptionalStr, hv]
  have hd2 : parseOptionalStr fs "description" "" = some (some "") := by
    simp [parseOptionalStr, hd]
  simp only [validatePlatformRequest] at h
  rw [hv2, hd2] at h
  cases hn : parseRequiredStr fs "name" <;> rw [hn] at h
  · exact absurd h (by simp)
  · cases h
    exact ⟨rfl, rfl, by simp, by simp⟩

/-- Claim C6 witness: the body with only a name key validates to the
PlatformRequest carrying both defaults. -/
theorem c6_witness :
    (PlatformRequest.mk "Acme" (some "1.0.0") (some "")).version = some "1.0.0" ∧
    (PlatformRequest.mk "Acme" (some "1.0.0") (some "")).description = some "" ∧
    (PlatformRequest.mk "Acme" (some "1.0.0") (some "")).version ≠ none ∧
    (PlatformRequest.mk "Acme" (some "1.0.0") (some "")).description ≠ none :=
  c6_optional_defaults [("name", Json.str "Acme")]
    (PlatformRequest.mk "Acme" (some "1.0.0") (some "")) rfl rfl rfl

/-- Claim C7: when the platform computation fails, the failure is logged at
error severity and still propagates unchanged, and the encoded response is
status 500 with the fixed generic error body — a constant that carries no
text of the internal exception. -/
theorem c7_handler_failure_logged_500 (run : PlatformRequest → Except String Json)
    (r : PlatformRequest) (e : String) (h : run r = Except.error e) :
    (platformGuarded run r).1 = Except.error e ∧
    LogEntry.mk Severity.error ("Error processing platform request: " ++ e)
      ∈ (platformGuarded run r).2 ∧
    (encodeOutcome (platformGuarded run r).1).statusCode = 500 ∧
    (encodeOutcome (platformGuarded run r).1).body = serializeJson internalErrorBody := by
  unfold platformGuarded
  rw [h]
  refine ⟨rfl, ?_, rfl, rfl⟩
  simp

/-- Claim C7 witness: a computation failing with the text boom is logged at
error severity and encoded as a 500 with the generic error body. -/
theorem c7_witness :
    (platformGuarded (fun _ => Except.error "boom")
        (PlatformRequest.mk "Acme" (some "1.0.0") (some ""))).1 = Except.error "boom" ∧
    LogEntry.mk Severity.error ("Error processing platform request: " ++ "boom")
      ∈ (platformGuarded (fun _ => Except.error "boom")
          (PlatformRequest.mk "Acme" (some "1.0.0") (some ""))).2 ∧
    (encodeOutcome (platformGuarded (fun _ => Except.error "boom")
        (PlatformRequest.mk "Acme" (some "1.0.0") (some ""))).1).statusCode = 500 ∧
    (encodeOutcome (platformGuarded (fun _ => Except.error "boom")
        (PlatformRequest.mk "Acme" (some "1.0.0") (some ""))).1).body
      = serializeJson internalErrorBody :=
  c7_handler_failure_logged_500 (fun _ => Except.error "boom")
    (PlatformRequest.mk "Acme" (some "1.0.0") (some "")) "boom" rfl

/-- Claim C8: dispatch is deterministic — identical inbound events yield
identical outbound responses — and metadata.processed_at in every platform
result is the fixed literal timestamp, so it cannot vary between
invocations. -/
theorem c8_deterministic_dispatch (m1 p1 : String) (b1 : Body) (m2 p2 : String) (b2 : Body)
    (r : PlatformRequest) (h : m1 = m2 ∧ p1 = p2 ∧ b1 = b2) :
    dispatch m1 p1 b1 = dispatch m2 p2 b2 ∧
    Option.bind (Json.getField (platform r) "metadata")
      (fun m => Json.getField m "processed_at") = some (Json.str "2024-01-01T00:00:00Z") := by
  obtain ⟨h1, h2, h3⟩ := h
  subst h1
  subst h2
  subst h3
  exact ⟨rfl, rfl⟩

/-- Claim C8 witness: two identical GET / events dispatch to the same
response, and the platform result for the request with name Acme carries the
fixed processed_at timestamp. -/
theorem c8_witness :
    dispatch "GET" "/" Body.absent = dispatch "GET" "/" Body.absent ∧
    Option.bind (Json.getField (platform (PlatformRequest.mk "Acme" (some "1.0.0") (some "")))
        "metadata")
      (fun m => Json.getField m "processed_at") = some (Json.str "2024-01-01T00:00:00Z") :=
  c8_deterministic_dispatch "GET" "/" Body.absent "GET" "/" Body.absent
    (PlatformRequest.mk "Acme" (some "1.0.0") (some "")) ⟨rfl, rfl, rfl⟩

/-- Claim C9: GET /health is answered 200 with exactly the fixed healthy
body, and the outcome does not depend on the request body — the health
handler takes no input and cannot fail. -/
theorem c9_health_ok :
    (dispatch "GET" "/health" Body.absent).statusCode = 200 ∧
    (dispatch "GET" "/health" Body.absent).body
      = "\x7b\"status\":\"healthy\",\"service\":\"example-python-lambda\"\x7d" ∧
    ∀ b : Body, dispatch "GET" "/health" b = dispatch "GET" "/health" Body.absent :=
  ⟨rfl, rfl, fun _ => rfl⟩

/-- Claim C10: an explicit JSON null for version validates, the default is
not substituted, the version clause is omitted from the message and
platform.version in the result is null; symmetrically an explicit null
description validates, keeps the defaulted version clause and yields a null
platform.description. -/
theorem c10_explicit_null_fields :
    validatePlatformRequest (Json.obj [("name", Json.str "Acme"), ("version", Json.null)])
      = some (PlatformRequest.mk "Acme" none (some "")) ∧
    (dispatch "POST" "/platform"
        (Body.json (Json.obj [("name", Json.str "Acme"), ("version", Json.null)]))).statusCode
      = 200 ∧
    Json.getField
        (dispatchCore "POST" "/platform"
          (Body.json (Json.obj [("name", Json.str "Acme"), ("version", Json.null)]))).2
        "message"
      = some (Json.str "Welcome to Acme!") ∧
    Option.bind
        (Json.getField
          (dispatchCore "POST" "/platform"
            (Body.json (Json.obj [("name", Json.str "Acme"), ("version", Json.null)]))).2
          "platform")
        (fun p => Json.getField p "version")
      = some Json.null ∧
    validatePlatformRequest (Json.obj [("name", Json.str "Acme"), ("description", Json.null)])
      = some (PlatformRequest.mk "Acme" (some "1.0.0") none) ∧
    (dispatch "POST" "/platform"
        (Body.json (Json.obj [("name", Json.str "Acme"), ("description", Json.null)]))).statusCode
      = 200 ∧
    Json.getField
        (dispatchCore "POST" "/platform"
          (Body.json (Json.obj [("name", Json.str "Acme"), ("description", Json.null)]))).2
        "message"
      = some (Json.str "Welcome to Acme! Running version 1.0.0.") ∧
    Option.bind
        (Json.getField
          (dispatchCore "POST" "/platform"
            (Body.json (Json.obj [("name", Json.str "Acme"), ("description", Json.null)]))).2
          "platform")
        (fun p => Json.getField p "description")
      = some Json.null :=
  ⟨rfl, rfl, rfl, rfl, rfl, rfl, rfl, rfl⟩

end ExampleLambda
